import Mathlib

/-!
Shallow embedding of the faktory_worker_node core: the Connection protocol
layer (pending response-handler queue, FIFO correlation, close-time flush)
and the Worker engine (tick loop, quiet/stop lifecycle, middleware executor,
handle). Definitions are translated from the TypeScript source; theorems
check the specification's claims against them.
-/

/-- A JavaScript Error value, reduced to its message. -/
structure JsError where
  message : String
deriving DecidableEq, Repr

/-- An arbitrary JavaScript value that may be thrown: either a proper Error
or a non-Error value (collapsed to its string rendering). -/
inductive JsVal where
  | err (e : JsError)
  | raw (s : String)
deriving DecidableEq, Repr

/-- Modelled from the spec: the wrap-non-errors module (not part of the core
source files) "normalizes any raised value into a proper error object if it
is not already one". -/
def wrapNonErrors : JsVal → JsError
  | JsVal.err e => e
  | JsVal.raw s => JsError.mk s

/-- The generic error used by Connection.onClose when no socket error was
observed: new Error('Connection closed'). -/
def connectionClosedError : JsError := JsError.mk "Connection closed"

deriving instance DecidableEq for Except

/-- The outcome a pending response handler is invoked with: the handler body
pushed by Connection.send runs reject(err) when err is set and
resolve(response) otherwise. -/
abbrev Resolution := Except JsError String

/-- State of a Connection: the ordered queue of pending response handlers
(identified by the send counter at the time they were pushed), the send
counter, the frames written to the socket, the log of handler invocations in
order, the last socket error observed by onError, and the connected/closing
flags. Event emission on the connection is not observable in the properties
below and is not recorded. -/
structure Connection where
  pending : List Nat
  sends : Nat
  written : List String
  resolutions : List (Nat × Resolution)
  lastError : Option JsError
  connected : Bool
  closing : Bool
deriving DecidableEq, Repr

/-- A Connection right after a successful open, once the greeting handler has
been consumed: empty pending queue, nothing resolved, no socket error. -/
def Connection.init : Connection :=
  { pending := [], sends := 0, written := [], resolutions := [],
    lastError := none, connected := true, closing := false }

/-- Connection.send: joins the command tokens with spaces, writes the line
terminated by CRLF, and pushes one response handler onto the pending queue.
The handler is identified by the value of the send counter, so the i-th send
pushes handler i. -/
def Connection.send (c : Connection) (command : List String) : Connection :=
  { c with
    written := c.written ++ [String.intercalate " " command ++ "\r\n"],
    pending := c.pending ++ [c.sends],
    sends := c.sends + 1 }

/-- The handler body pushed by Connection.send: if err is set the promise is
rejected with it, otherwise it is resolved with the response string. -/
def Connection.resolveWith (e : Option JsError) (message : String) : Resolution :=
  match e with
  | some errv => Except.error errv
  | none => Except.ok message

/-- Connection.onMessage: pops the oldest pending handler and invokes it with
(err, message); when no handler is pending the message is dropped (logged
with a warning in the source) and the state is unchanged. -/
def Connection.onMessage (c : Connection) (e : Option JsError) (message : String) : Connection :=
  match c.pending with
  | [] => c
  | h :: rest =>
    { c with
      pending := rest,
      resolutions := c.resolutions ++ [(h, Connection.resolveWith e message)] }

/-- Connection.clearPending: this.pending.forEach(callback => callback(err)).
Every queued handler is invoked with the error; the queue itself is not
emptied by the forEach. -/
def Connection.clearPending (c : Connection) (errv : JsError) : Connection :=
  { c with
    resolutions := c.resolutions ++ c.pending.map (fun h => (h, Except.error errv)) }

/-- Connection.onError: records the socket error as lastError (and re-emits
it, which is not recorded here). -/
def Connection.onError (c : Connection) (errv : JsError) : Connection :=
  { c with lastError := some errv }

/-- Connection.onClose: clears the closing/connected flags and flushes every
pending handler with the last observed socket error, or a generic
connection-closed error when none was observed. -/
def Connection.onClose (c : Connection) : Connection :=
  Connection.clearPending
    { c with closing := false, connected := false }
    (c.lastError.getD connectionClosedError)

/-- Sends a list of commands in order on a connection. -/
def Connection.sendAll : Connection → List (List String) → Connection
  | c, [] => c
  | c, cmd :: cmds => Connection.sendAll (Connection.send c cmd) cmds

/-- Delivers a list of parsed messages (no parser errors) in order. -/
def Connection.deliverAll : Connection → List String → Connection
  | c, [] => c
  | c, m :: ms => Connection.deliverAll (Connection.onMessage c none m) ms

/-- Applies Connection.onError for the given error when one is present;
used to set up a connection whose socket did or did not observe an error
before closing. -/
def Connection.afterError (c : Connection) (eOpt : Option JsError) : Connection :=
  match eOpt with
  | some errv => Connection.onError c errv
  | none => c

/-- A job payload fetched from the server: id, jobtype and argument list
(opaque fields dropped). -/
structure JobPayload where
  jid : String
  jobtype : String
  args : List String
deriving DecidableEq, Repr

/-- Observable events of one pass through the middleware chain: a user
middleware stage running its pre-continuation code (enter) or its
post-continuation code (exit), the built-in registry lookup, and the
invocation of the resolved job function. -/
inductive Ev where
  | enter (i : Nat)
  | exit (i : Nat)
  | lookup
  | invoke
deriving DecidableEq, Repr

/-- Behaviour of a registered job function once invoked with the job's
arguments: it either returns a plain value/promise (value) or returns a
second-order thunk that is then invoked with the execution context (thunk);
in both cases the overall outcome is a resolution or a thrown value. -/
inductive FnBehavior where
  | value (r : Except JsVal Unit)
  | thunk (r : Except JsVal Unit)
deriving DecidableEq, Repr

/-- Runs a job function to its outcome: callJobFn awaits fn(...args) and, if
the result is itself a function, awaits that thunk applied to the context;
otherwise awaits the returned value directly. -/
def runBehavior : FnBehavior → Except JsVal Unit
  | FnBehavior.value r => r
  | FnBehavior.thunk r => r

/-- The per-job middleware context: the job, the fn slot populated mid-chain
by the registry lookup, and the trace of observed events. -/
structure Ctx where
  job : JobPayload
  fn : Option FnBehavior
  trace : List Ev
deriving DecidableEq, Repr

/-- The fresh context handle() builds for one job: execute({ job }). -/
def initCtx (job : JobPayload) : Ctx :=
  { job := job, fn := none, trace := [] }

/-- A koa-style middleware stage: receives the context and a single-use
continuation to the rest of the chain, and returns the (possibly failing)
final context. -/
abbrev Middleware := Ctx → (Ctx → Except JsVal Ctx) → Except JsVal Ctx

/-- Modelled from the spec: koa-compose (an external collaborator) builds a
single ordered onion out of the stage list; each stage may run code before
and after delegating to the next stage, and the continuation past the last
stage resolves immediately. -/
def compose (stack : List Middleware) : Ctx → Except JsVal Ctx :=
  stack.foldr (fun mw next => fun ctx => mw ctx next) (fun ctx => Except.ok ctx)

/-- Worker's first built-in stage: reads the job's handler from the registry
into ctx.fn, throws "No jobtype registered: jobtype" when the registry has no
entry for the jobtype, and otherwise delegates to the next stage. -/
def Worker.getJobFnFromRegistry (registry : String → Option FnBehavior) : Middleware :=
  fun ctx next =>
    let ctx1 := { ctx with
      fn := registry ctx.job.jobtype,
      trace := ctx.trace ++ [Ev.lookup] }
    match ctx1.fn with
    | none => Except.error (JsVal.err (JsError.mk ("No jobtype registered: " ++ ctx.job.jobtype)))
    | some _ => next ctx1

/-- Worker's second built-in stage: invokes the resolved job function with
the job's arguments (and its thunk when it returns one), propagating any
thrown value, then delegates to the next stage. -/
def Worker.callJobFn : Middleware :=
  fun ctx next =>
    match ctx.fn with
    | none => Except.error (JsVal.err (JsError.mk "fn is not a function"))
    | some fn =>
      let ctx1 := { ctx with trace := ctx.trace ++ [Ev.invoke] }
      match runBehavior fn with
      | Except.ok _ => next ctx1
      | Except.error e => Except.error e

/-- Worker.createExecutor: composes all user-supplied middleware in declared
order followed by the two built-in stages appended last. -/
def Worker.createExecutor (registry : String → Option FnBehavior)
    (middleware : List Middleware) : Ctx → Except JsVal Ctx :=
  compose (middleware ++ [Worker.getJobFnFromRegistry registry, Worker.callJobFn])

/-- An instrumented user middleware stage: records its pre-continuation code
as an enter event, delegates once to the continuation, and records its
post-continuation code as an exit event (run only when the continuation
returned without throwing). -/
def userProbe (i : Nat) : Middleware :=
  fun ctx next =>
    match next { ctx with trace := ctx.trace ++ [Ev.enter i] } with
    | Except.ok c => Except.ok { c with trace := c.trace ++ [Ev.exit i] }
    | Except.error e => Except.error e

/-- A call made on the shared Client by Worker.handle. -/
inductive ClientCall where
  | ack (jid : String)
  | fail (jid : String) (error : JsError)
deriving DecidableEq, Repr

/-- The payload of the "fail" event emitted by Worker.handle: the job and the
raw (unwrapped) error. -/
structure FailEvent where
  job : JobPayload
  error : JsVal
deriving DecidableEq, Repr

/-- The behaviour of the shared Client as observed by one handle() call: what
ack and fail resolve or reject with, per jid. -/
structure ClientEnv where
  ackResult : String → Except JsVal Unit
  failResult : String → JsError → Except JsVal Unit

/-- What one Worker.handle call produces: its settled result ("ack"/"fail",
or a rejection when the client's fail call itself rejects), the client calls
it made in order, and the worker events it emitted. -/
structure HandleResult where
  result : Except JsVal String
  calls : List ClientCall
  events : List FailEvent
deriving DecidableEq, Repr

/-- The catch branch of Worker.handle: normalizes the caught value via
wrap-non-errors, reports the failure to the server, then emits the "fail"
event with the job and the raw error and returns the "fail" marker; when the
fail call itself rejects, that rejection propagates out of handle before the
event is emitted. -/
def Worker.handleFailure (env : ClientEnv) (job : JobPayload)
    (callsBefore : List ClientCall) (e : JsVal) : HandleResult :=
  let errv := wrapNonErrors e
  match env.failResult job.jid errv with
  | Except.ok _ =>
    { result := Except.ok "fail",
      calls := callsBefore ++ [ClientCall.fail job.jid errv],
      events := [{ job := job, error := e }] }
  | Except.error e2 =>
    { result := Except.error e2,
      calls := callsBefore ++ [ClientCall.fail job.jid errv],
      events := [] }

/-- Worker.handle: runs the composed executor on a fresh context for the job;
on success acknowledges the job by jid and returns "ack"; any value thrown by
the chain (or the ack call's rejection) is caught and routed through the
catch branch. -/
def Worker.handle (env : ClientEnv) (execute : Ctx → Except JsVal Ctx)
    (job : JobPayload) : HandleResult :=
  match execute (initCtx job) with
  | Except.ok _ =>
    match env.ackResult job.jid with
    | Except.ok _ =>
      { result := Except.ok "ack", calls := [ClientCall.ack job.jid], events := [] }
    | Except.error e => Worker.handleFailure env job [ClientCall.ack job.jid] e
  | Except.error e => Worker.handleFailure env job [] e

/-- The observable outcome of handling one fetched job inside a tick: handle
settled with the "ack" marker (an ACK was sent), settled with the "fail"
marker (a FAIL was sent), or rejected (only possible when the client's own
fail call rejects), which the tick catches. -/
inductive HandleOutcome where
  | acked
  | failed
  | raised
deriving DecidableEq, Repr

/-- What the environment does for one non-quieted tick: the fetch rejects,
the fetch returns null (no job), or the fetch returns a job whose handling
has the given outcome. -/
inductive TickEnv where
  | fetchErr
  | fetchNil
  | fetchJob (jid : String) (outcome : HandleOutcome)
deriving DecidableEq, Repr

/-- TickActions a single tick performs, in order. -/
inductive TickAction where
  | fetch
  | ackJob (jid : String)
  | failJob (jid : String)
  | emitError
  | sleep
  | reschedule
deriving DecidableEq, Repr

/-- Worker.tick: when the quieted flag is observed the tick returns at once,
performing no fetch and not rescheduling the slot. Otherwise it fetches; a
null result just falls through to the finally block; a fetched job is handed
to handle (whose ack or fail is part of the tick); an error raised by fetch
or handle is caught, emitted as an "error" event and followed by a fixed
backoff sleep; in every non-quieted case the finally block reschedules the
slot. -/
def Worker.tick (quieted : Bool) (e : TickEnv) : List TickAction :=
  if quieted then []
  else
    match e with
    | TickEnv.fetchErr => [TickAction.fetch, TickAction.emitError, TickAction.sleep, TickAction.reschedule]
    | TickEnv.fetchNil => [TickAction.fetch, TickAction.reschedule]
    | TickEnv.fetchJob jid HandleOutcome.acked =>
      [TickAction.fetch, TickAction.ackJob jid, TickAction.reschedule]
    | TickEnv.fetchJob jid HandleOutcome.failed =>
      [TickAction.fetch, TickAction.failJob jid, TickAction.reschedule]
    | TickEnv.fetchJob _ HandleOutcome.raised =>
      [TickAction.fetch, TickAction.emitError, TickAction.sleep, TickAction.reschedule]

/-- One slot's loop: tick i runs with the quieted flag as observed at its
start; the loop continues to tick i+1 exactly when the tick rescheduled
itself, and stops otherwise. Fuel bounds the number of ticks inspected. -/
def Worker.slotLoop (fuel : Nat) (i : Nat) (quieted : Nat → Bool)
    (env : Nat → TickEnv) : List (List TickAction) :=
  match fuel with
  | 0 => []
  | Nat.succ f =>
    if TickAction.reschedule ∈ Worker.tick (quieted i) (env i) then
      Worker.tick (quieted i) (env i) :: Worker.slotLoop f (i + 1) quieted env
    else [Worker.tick (quieted i) (env i)]

/-- Outcome of one Worker.stop call: how many times client.close was called,
whether the promise returned by stop resolved, and the exit status when
process.exit was invoked. -/
structure StopOutcome where
  closeCalls : Nat
  resolved : Bool
  exit : Option Nat
deriving DecidableEq, Repr

/-- Worker.stop, as a function of the timeline it races: settle is the time
at which every slot's in-flight task has settled (when Promise.all resolves),
closeDur the time client.close takes in the drain branch, and T the shutdown
timeout. The drain branch resumes at settle, calls client.close, and only
after that close completes does it clear the timer and resolve. The timer
fires at T unless it was cleared strictly before T, i.e. unless
settle + closeDur < T; when it fires it calls client.close again, resolves,
and exits the process with status 1, after which nothing further runs. So:
if settle + closeDur < T the client is closed once, stop resolves and the
process does not exit; if the timer fires while the drain branch is still
awaiting close (settle < T ≤ settle + closeDur) the client has been closed
twice when the process exits with 1; if the tasks had not all settled at T
(T ≤ settle) only the timer's close happened before the exit. -/
def Worker.stop (settle closeDur T : Nat) : StopOutcome :=
  if settle + closeDur < T then
    { closeCalls := 1, resolved := true, exit := none }
  else if settle < T then
    { closeCalls := 2, resolved := true, exit := some 1 }
  else
    { closeCalls := 1, resolved := true, exit := some 1 }

theorem sendAll_pending (cmds : List (List String)) : ∀ c : Connection,
    (Connection.sendAll c cmds).pending
      = c.pending ++ (List.range cmds.length).map (fun k => c.sends + k) := by
  induction cmds with
  | nil => intro c; simp [Connection.sendAll]
  | cons cmd cmds ih =>
    intro c
    have step : Connection.sendAll c (cmd :: cmds)
        = Connection.sendAll (Connection.send c cmd) cmds := rfl
    rw [step, ih]
    have harg : (fun k => c.sends + 1 + k) = (fun k => c.sends + (k + 1)) := by
      funext k; omega
    simp [Connection.send, List.range_succ_eq_map, List.map_map, Function.comp, harg]

theorem sendAll_resolutions (cmds : List (List String)) : ∀ c : Connection,
    (Connection.sendAll c cmds).resolutions = c.resolutions := by
  induction cmds with
  | nil => intro c; rfl
  | cons cmd cmds ih =>
    intro c
    have step : Connection.sendAll c (cmd :: cmds)
        = Connection.sendAll (Connection.send c cmd) cmds := rfl
    rw [step, ih]
    rfl

theorem sendAll_lastError (cmds : List (List String)) : ∀ c : Connection,
    (Connection.sendAll c cmds).lastError = c.lastError := by
  induction cmds with
  | nil => intro c; rfl
  | cons cmd cmds ih =>
    intro c
    have step : Connection.sendAll c (cmd :: cmds)
        = Connection.sendAll (Connection.send c cmd) cmds := rfl
    rw [step, ih]
    rfl

theorem deliverAll_spec (msgs : List String) : ∀ c : Connection,
    msgs.length ≤ c.pending.length →
    (Connection.deliverAll c msgs).resolutions
        = c.resolutions ++ (c.pending.take msgs.length).zip (msgs.map Except.ok)
    ∧ (Connection.deliverAll c msgs).pending = c.pending.drop msgs.length := by
  induction msgs with
  | nil => intro c _; simp [Connection.deliverAll]
  | cons m ms ih =>
    intro c hlen
    match hp : c.pending with
    | [] => rw [hp] at hlen; simp at hlen
    | hd :: rest =>
      have hone : Connection.onMessage c none m
          = { c with pending := rest,
                     resolutions := c.resolutions ++ [(hd, Except.ok m)] } := by
        unfold Connection.onMessage
        rw [hp]
        rfl
      have step : Connection.deliverAll c (m :: ms)
          = Connection.deliverAll (Connection.onMessage c none m) ms := rfl
      have hlen' : ms.length ≤ rest.length := by
        rw [hp] at hlen; simpa using hlen
      obtain ⟨h1, h2⟩ := ih (Connection.onMessage c none m) (by rw [hone]; simpa using hlen')
      constructor
      · rw [step, h1, hone]
        simp
      · rw [step, h2, hone]
        simp

/-- C1: on one Connection, commands sent in order push one response handler
each (handler i for the i-th send), and messages arriving in that order pop
handlers in strict arrival order, so the i-th arriving message resolves
exactly the promise returned by the i-th send: the pairing is
(C1,R1),...,(Cn,Rn). -/
theorem fifo_correlation (cmds : List (List String)) (msgs : List String)
    (hlen : msgs.length = cmds.length) :
    (Connection.sendAll Connection.init cmds).pending = List.range cmds.length
    ∧ (Connection.deliverAll (Connection.sendAll Connection.init cmds) msgs).resolutions
        = (List.range cmds.length).zip (msgs.map Except.ok)
    ∧ (Connection.deliverAll (Connection.sendAll Connection.init cmds) msgs).pending = [] := by
  have hpend : (Connection.sendAll Connection.init cmds).pending = List.range cmds.length := by
    rw [sendAll_pending]
    simp [Connection.init]
  have hres : (Connection.sendAll Connection.init cmds).resolutions = [] := by
    rw [sendAll_resolutions]
    rfl
  obtain ⟨h1, h2⟩ := deliverAll_spec msgs (Connection.sendAll Connection.init cmds)
    (by rw [hpend]; simp [hlen])
  refine ⟨hpend, ?_, ?_⟩
  · rw [h1, hres, hpend, hlen]
    simp [List.take_range]
  · rw [h2, hpend, hlen]
    simp

/-- C1 witness: two commands followed by two responses pair up positionally. -/
theorem fifo_correlation_witness :
    (Connection.sendAll Connection.init [["FETCH", "default"], ["BEAT"]]).pending
        = List.range 2
    ∧ (Connection.deliverAll
          (Connection.sendAll Connection.init [["FETCH", "default"], ["BEAT"]])
          ["R1", "R2"]).resolutions
        = (List.range 2).zip (["R1", "R2"].map Except.ok)
    ∧ (Connection.deliverAll
          (Connection.sendAll Connection.init [["FETCH", "default"], ["BEAT"]])
          ["R1", "R2"]).pending = [] :=
  fifo_correlation [["FETCH", "default"], ["BEAT"]] ["R1", "R2"] (by decide)

/-- C2: when N commands have been sent and no response has arrived, closing
the socket invokes every one of the N pending handlers with an error (the
last observed socket error when there was one, otherwise the generic
connection-closed error); every handler is invoked (none is left unresolved)
and the list of invoked handlers has no duplicate, so each is invoked exactly
once. -/
theorem close_flushes_pending (cmds : List (List String)) (eOpt : Option JsError) :
    (Connection.onClose
        (Connection.afterError (Connection.sendAll Connection.init cmds) eOpt)).resolutions
      = (List.range cmds.length).map
          (fun i => (i, Except.error (eOpt.getD connectionClosedError)))
    ∧ (∀ i, i < cmds.length →
        (i, Except.error (eOpt.getD connectionClosedError))
          ∈ (Connection.onClose
              (Connection.afterError (Connection.sendAll Connection.init cmds) eOpt)).resolutions)
    ∧ ((Connection.onClose
          (Connection.afterError (Connection.sendAll Connection.init cmds) eOpt)).resolutions.map
          Prod.fst).Nodup := by
  have hpend : (Connection.afterError (Connection.sendAll Connection.init cmds) eOpt).pending
      = List.range cmds.length := by
    cases eOpt with
    | none =>
      show (Connection.sendAll Connection.init cmds).pending = List.range cmds.length
      rw [sendAll_pending]; simp [Connection.init]
    | some errv =>
      show (Connection.sendAll Connection.init cmds).pending = List.range cmds.length
      rw [sendAll_pending]; simp [Connection.init]
  have hres : (Connection.afterError (Connection.sendAll Connection.init cmds) eOpt).resolutions
      = [] := by
    cases eOpt with
    | none =>
      show (Connection.sendAll Connection.init cmds).resolutions = []
      rw [sendAll_resolutions]; rfl
    | some errv =>
      show (Connection.sendAll Connection.init cmds).resolutions = []
      rw [sendAll_resolutions]; rfl
  have hlast : (Connection.afterError (Connection.sendAll Connection.init cmds) eOpt).lastError
      = eOpt := by
    cases eOpt with
    | none =>
      show (Connection.sendAll Connection.init cmds).lastError = none
      rw [sendAll_lastError]; rfl
    | some errv => rfl
  have hflush : (Connection.onClose
      (Connection.afterError (Connection.sendAll Connection.init cmds) eOpt)).resolutions
      = (List.range cmds.length).map
          (fun i => (i, Except.error (eOpt.getD connectionClosedError))) := by
    show (Connection.afterError (Connection.sendAll Connection.init cmds) eOpt).resolutions
        ++ ((Connection.afterError (Connection.sendAll Connection.init cmds) eOpt).pending.map
              (fun h => (h, Except.error
                ((Connection.afterError (Connection.sendAll Connection.init cmds)
                    eOpt).lastError.getD connectionClosedError))))
        = (List.range cmds.length).map
            (fun i => (i, Except.error (eOpt.getD connectionClosedError)))
    rw [hres, hlast, hpend]
    simp
  refine ⟨hflush, fun i hi => ?_, ?_⟩
  · rw [hflush]
    exact List.mem_map.mpr ⟨i, List.mem_range.mpr hi, rfl⟩
  · rw [hflush, List.map_map]
    rw [show (Prod.fst ∘ fun i : Nat =>
        (i, Except.error (eOpt.getD connectionClosedError))) = (fun i => i) from rfl]
    rw [List.map_id']
    exact List.nodup_range cmds.length

/-- C2 witness: three commands, socket errors then closes; all three handlers
receive the observed error exactly once. -/
theorem close_flushes_pending_witness :
    (Connection.onClose
        (Connection.afterError (Connection.sendAll Connection.init [["A"], ["B"], ["C"]])
          (some (JsError.mk "ECONNRESET")))).resolutions
      = (List.range 3).map
          (fun i => (i, Except.error ((some (JsError.mk "ECONNRESET")).getD connectionClosedError)))
    ∧ (∀ i, i < ([["A"], ["B"], ["C"]] : List (List String)).length →
        (i, Except.error ((some (JsError.mk "ECONNRESET")).getD connectionClosedError))
          ∈ (Connection.onClose
              (Connection.afterError (Connection.sendAll Connection.init [["A"], ["B"], ["C"]])
                (some (JsError.mk "ECONNRESET")))).resolutions)
    ∧ ((Connection.onClose
          (Connection.afterError (Connection.sendAll Connection.init [["A"], ["B"], ["C"]])
            (some (JsError.mk "ECONNRESET")))).resolutions.map Prod.fst).Nodup :=
  close_flushes_pending [["A"], ["B"], ["C"]] (some (JsError.mk "ECONNRESET"))

/-- C9: clearPending invokes every pending handler but leaves the pending
queue itself unchanged, so after the close-time flush the queue still holds
every flushed handler; a message arriving after the flush pops and invokes
the already-flushed head handler a second time rather than finding an empty
queue. -/
theorem clearPending_keeps_queue (c : Connection) (errv : JsError) (h : Nat)
    (rest : List Nat) (msg : String) (hp : c.pending = h :: rest) :
    (Connection.clearPending c errv).pending = c.pending
    ∧ (Connection.onClose c).pending = c.pending
    ∧ (h, Except.error (c.lastError.getD connectionClosedError))
        ∈ (Connection.onClose c).resolutions
    ∧ (Connection.onMessage (Connection.onClose c) none msg).resolutions
        = (Connection.onClose c).resolutions ++ [(h, Except.ok msg)]
    ∧ (Connection.onMessage (Connection.onClose c) none msg).pending = rest := by
  have hq : (Connection.clearPending c errv).pending = c.pending := rfl
  have hcq : (Connection.onClose c).pending = c.pending := rfl
  have hflush : (Connection.onClose c).resolutions
      = c.resolutions
        ++ c.pending.map
            (fun x => (x, Except.error (c.lastError.getD connectionClosedError))) := rfl
  have hmem : (h, Except.error (c.lastError.getD connectionClosedError))
      ∈ (Connection.onClose c).resolutions := by
    rw [hflush]
    exact List.mem_append.mpr (Or.inr
      (List.mem_map.mpr ⟨h, by rw [hp]; exact List.mem_cons_self _ _, rfl⟩))
  have hpop : Connection.onMessage (Connection.onClose c) none msg
      = { Connection.onClose c with
          pending := rest,
          resolutions := (Connection.onClose c).resolutions ++ [(h, Except.ok msg)] } := by
    unfold Connection.onMessage
    rw [hcq, hp]
    rfl
  refine ⟨hq, hcq, hmem, ?_, ?_⟩
  · rw [hpop]
  · rw [hpop]

/-- C9 witness: with one command pending, the close-time flush rejects its
handler, and a late message invokes the same handler a second time. -/
theorem clearPending_keeps_queue_witness :
    (Connection.clearPending (Connection.send Connection.init ["BEAT"])
        (JsError.mk "boom")).pending
      = (Connection.send Connection.init ["BEAT"]).pending
    ∧ (Connection.onClose (Connection.send Connection.init ["BEAT"])).pending
      = (Connection.send Connection.init ["BEAT"]).pending
    ∧ (0, Except.error ((Connection.send Connection.init ["BEAT"]).lastError.getD
          connectionClosedError))
        ∈ (Connection.onClose (Connection.send Connection.init ["BEAT"])).resolutions
    ∧ (Connection.onMessage (Connection.onClose (Connection.send Connection.init ["BEAT"]))
          none "LATE").resolutions
        = (Connection.onClose (Connection.send Connection.init ["BEAT"])).resolutions
            ++ [(0, Except.ok "LATE")]
    ∧ (Connection.onMessage (Connection.onClose (Connection.send Connection.init ["BEAT"]))
          none "LATE").pending = [] :=
  clearPending_keeps_queue (Connection.send Connection.init ["BEAT"]) (JsError.mk "boom")
    0 [] "LATE" (by decide)

/-- C5: with user middleware [m1, m2], the executor runs m1's pre-continuation
code, then m2's, then the built-in registry lookup, then the invocation of
the resolved job function, then m2's post-continuation code, then m1's: the
two built-in stages always run after all user middleware, in that order. -/
theorem middleware_onion_order (registry : String → Option FnBehavior)
    (job : JobPayload) (b : FnBehavior)
    (hreg : registry job.jobtype = some b)
    (hb : runBehavior b = Except.ok ()) :
    (Worker.createExecutor registry [userProbe 1, userProbe 2] (initCtx job)).map Ctx.trace
      = Except.ok [Ev.enter 1, Ev.enter 2, Ev.lookup, Ev.invoke, Ev.exit 2, Ev.exit 1] := by
  simp [Worker.createExecutor, compose, userProbe, Worker.getJobFnFromRegistry,
    Worker.callJobFn, initCtx, hreg, hb, Except.map]

/-- C5 witness: a registry holding one ordinary job function, two probe
middleware stages, one job. -/
theorem middleware_onion_order_witness :
    (Worker.createExecutor (fun _ => some (FnBehavior.value (Except.ok ())))
        [userProbe 1, userProbe 2]
        (initCtx { jid := "j1", jobtype := "MyJob", args := [] })).map Ctx.trace
      = Except.ok [Ev.enter 1, Ev.enter 2, Ev.lookup, Ev.invoke, Ev.exit 2, Ev.exit 1] :=
  middleware_onion_order (fun _ => some (FnBehavior.value (Except.ok ())))
    { jid := "j1", jobtype := "MyJob", args := [] }
    (FnBehavior.value (Except.ok ())) rfl rfl

/-- C6: a job whose jobtype has no registry entry makes handle return the
failure marker "fail" and send a fail report for the job's jid whose error
names the missing jobtype; this registry error takes the same path as any
job execution error (the catch branch, including the "fail" event). -/
theorem unregistered_jobtype_fails (env : ClientEnv)
    (registry : String → Option FnBehavior) (job : JobPayload)
    (hreg : registry job.jobtype = none)
    (hfail : env.failResult job.jid
        (JsError.mk ("No jobtype registered: " ++ job.jobtype)) = Except.ok ()) :
    Worker.handle env (Worker.createExecutor registry []) job
      = { result := Except.ok "fail",
          calls := [ClientCall.fail job.jid
            (JsError.mk ("No jobtype registered: " ++ job.jobtype))],
          events := [{ job := job,
                       error := JsVal.err
                         (JsError.mk ("No jobtype registered: " ++ job.jobtype)) }] } := by
  have hexec : Worker.createExecutor registry [] (initCtx job)
      = Except.error (JsVal.err (JsError.mk ("No jobtype registered: " ++ job.jobtype))) := by
    simp [Worker.createExecutor, compose, Worker.getJobFnFromRegistry, initCtx, hreg]
  simp [Worker.handle, hexec, Worker.handleFailure, wrapNonErrors, hfail]

/-- C6 witness: empty registry, client fail resolves. -/
theorem unregistered_jobtype_fails_witness :
    Worker.handle
        { ackResult := fun _ => Except.ok (), failResult := fun _ _ => Except.ok () }
        (Worker.createExecutor (fun _ => none) [])
        { jid := "j9", jobtype := "Missing", args := [] }
      = { result := Except.ok "fail",
          calls := [ClientCall.fail "j9" (JsError.mk ("No jobtype registered: " ++ "Missing"))],
          events := [{ job := { jid := "j9", jobtype := "Missing", args := [] },
                       error := JsVal.err
                         (JsError.mk ("No jobtype registered: " ++ "Missing")) }] } :=
  unregistered_jobtype_fails
    { ackResult := fun _ => Except.ok (), failResult := fun _ _ => Except.ok () }
    (fun _ => none) { jid := "j9", jobtype := "Missing", args := [] } rfl rfl

/-- C7: when the whole middleware chain (registered function, thunk and all
stages) completes without throwing and the client's ack call resolves, handle
makes exactly one client call, the ack for the job's jid, and returns the
success marker "ack". -/
theorem successful_job_acks (env : ClientEnv)
    (registry : String → Option FnBehavior) (middleware : List Middleware)
    (job : JobPayload) (ctxEnd : Ctx)
    (hexec : Worker.createExecutor registry middleware (initCtx job) = Except.ok ctxEnd)
    (hack : env.ackResult job.jid = Except.ok ()) :
    Worker.handle env (Worker.createExecutor registry middleware) job
      = { result := Except.ok "ack",
          calls := [ClientCall.ack job.jid],
          events := [] } := by
  simp [Worker.handle, hexec, hack]

/-- C7 witness: one registered job function, no middleware, ack resolves. -/
theorem successful_job_acks_witness :
    Worker.handle
        { ackResult := fun _ => Except.ok (), failResult := fun _ _ => Except.ok () }
        (Worker.createExecutor (fun _ => some (FnBehavior.value (Except.ok ()))) [])
        { jid := "j2", jobtype := "MyJob", args := ["a"] }
      = { result := Except.ok "ack",
          calls := [ClientCall.ack "j2"],
          events := [] } :=
  successful_job_acks
    { ackResult := fun _ => Except.ok (), failResult := fun _ _ => Except.ok () }
    (fun _ => some (FnBehavior.value (Except.ok ()))) []
    { jid := "j2", jobtype := "MyJob", args := ["a"] }
    { job := { jid := "j2", jobtype := "MyJob", args := ["a"] },
      fn := some (FnBehavior.value (Except.ok ())),
      trace := [Ev.lookup, Ev.invoke] }
    rfl rfl

/-- C8: whatever value the chain throws (job function, thunk or middleware
stage), handle catches it rather than re-throwing: provided the fail report
itself resolves, handle normalizes the raw value into a proper error object
for the report, sends the fail report, emits the "fail" event carrying the
job and the raw error, and settles with the failure marker "fail" — so the
tick loop never observes the job-level error as an exception. -/
theorem job_error_never_rethrown (env : ClientEnv)
    (execute : Ctx → Except JsVal Ctx) (job : JobPayload) (e : JsVal)
    (hexec : execute (initCtx job) = Except.error e)
    (hfail : env.failResult job.jid (wrapNonErrors e) = Except.ok ()) :
    Worker.handle env execute job
      = { result := Except.ok "fail",
          calls := [ClientCall.fail job.jid (wrapNonErrors e)],
          events := [{ job := job, error := e }] } := by
  simp [Worker.handle, hexec, Worker.handleFailure, hfail]

/-- C8 witness: a chain throwing a raw non-Error value; handle settles with
"fail", wrapping the value for the report and passing it raw to the event. -/
theorem job_error_never_rethrown_witness :
    Worker.handle
        { ackResult := fun _ => Except.ok (), failResult := fun _ _ => Except.ok () }
        (fun _ => Except.error (JsVal.raw "string thrown"))
        { jid := "j3", jobtype := "Boom", args := [] }
      = { result := Except.ok "fail",
          calls := [ClientCall.fail "j3" (wrapNonErrors (JsVal.raw "string thrown"))],
          events := [{ job := { jid := "j3", jobtype := "Boom", args := [] },
                       error := JsVal.raw "string thrown" }] } :=
  job_error_never_rethrown
    { ackResult := fun _ => Except.ok (), failResult := fun _ _ => Except.ok () }
    (fun _ => Except.error (JsVal.raw "string thrown"))
    { jid := "j3", jobtype := "Boom", args := [] }
    (JsVal.raw "string thrown") rfl rfl

/-- C10: when the chain succeeds but the subsequent ack call rejects, the
rejection is caught by the same catch branch: handle sends a FAIL report for
the jid of a job that actually completed, emits the "fail" event, and returns
the failure marker "fail" instead of the success marker. -/
theorem ack_rejection_reports_failure (env : ClientEnv)
    (execute : Ctx → Except JsVal Ctx) (job : JobPayload) (ctxEnd : Ctx) (ea : JsVal)
    (hexec : execute (initCtx job) = Except.ok ctxEnd)
    (hack : env.ackResult job.jid = Except.error ea)
    (hfail : env.failResult job.jid (wrapNonErrors ea) = Except.ok ()) :
    Worker.handle env execute job
      = { result := Except.ok "fail",
          calls := [ClientCall.ack job.jid, ClientCall.fail job.jid (wrapNonErrors ea)],
          events := [{ job := job, error := ea }] } := by
  simp [Worker.handle, hexec, hack, Worker.handleFailure, hfail]

/-- C10 witness: a successful chain whose ack rejects with a connection
error; handle reports the completed job as failed and returns "fail". -/
theorem ack_rejection_reports_failure_witness :
    Worker.handle
        { ackResult := fun _ => Except.error (JsVal.err (JsError.mk "Connection closed")),
          failResult := fun _ _ => Except.ok () }
        (fun ctx => Except.ok ctx)
        { jid := "j4", jobtype := "MyJob", args := [] }
      = { result := Except.ok "fail",
          calls := [ClientCall.ack "j4",
            ClientCall.fail "j4" (wrapNonErrors (JsVal.err (JsError.mk "Connection closed")))],
          events := [{ job := { jid := "j4", jobtype := "MyJob", args := [] },
                       error := JsVal.err (JsError.mk "Connection closed") }] } :=
  ack_rejection_reports_failure
    { ackResult := fun _ => Except.error (JsVal.err (JsError.mk "Connection closed")),
      failResult := fun _ _ => Except.ok () }
    (fun ctx => Except.ok ctx)
    { jid := "j4", jobtype := "MyJob", args := [] }
    (initCtx { jid := "j4", jobtype := "MyJob", args := [] })
    (JsVal.err (JsError.mk "Connection closed")) rfl rfl rfl

theorem tick_false_mem (e : TickEnv) :
    TickAction.fetch ∈ Worker.tick false e ∧ TickAction.reschedule ∈ Worker.tick false e := by
  cases e with
  | fetchErr => simp [Worker.tick]
  | fetchNil => simp [Worker.tick]
  | fetchJob jid oc => cases oc <;> simp [Worker.tick]

theorem tick_true_empty (e : TickEnv) : Worker.tick true e = [] := rfl

theorem slotLoop_quiet_closed (d : Nat) : ∀ (fuel i : Nat) (env : Nat → TickEnv),
    d < fuel →
    Worker.slotLoop fuel i (fun j => decide (i + d ≤ j)) env
      = (List.range d).map (fun k => Worker.tick false (env (i + k))) ++ [[]] := by
  induction d with
  | zero =>
    intro fuel i env hf
    match fuel, hf with
    | Nat.succ f, _ =>
      have hq : decide (i + 0 ≤ i) = true := by simp
      simp only [Worker.slotLoop, hq]
      simp [Worker.tick]
  | succ d ih =>
    intro fuel i env hf
    match fuel, hf with
    | Nat.succ f, hf =>
      have hq : decide (i + (d + 1) ≤ i) = false := by simp
      have hr := (tick_false_mem (env i)).2
      have hfun : (fun j => decide (i + (d + 1) ≤ j))
          = (fun j => decide ((i + 1) + d ≤ j)) := by
        funext j
        rw [show i + (d + 1) = (i + 1) + d by omega]
      have hstep : Worker.slotLoop (Nat.succ f) i (fun j => decide (i + (d + 1) ≤ j)) env
          = Worker.tick false (env i)
            :: Worker.slotLoop f (i + 1) (fun j => decide (i + (d + 1) ≤ j)) env := by
        simp only [Worker.slotLoop, hq]
        rw [if_pos hr]
      rw [hstep, hfun, ih f (i + 1) env (by omega)]
      rw [List.range_succ_eq_map, List.map_cons, List.map_map, Nat.add_zero]
      have hmapf : ((fun k => Worker.tick false (env (i + k))) ∘ Nat.succ)
          = (fun k => Worker.tick false (env (i + 1 + k))) := by
        funext k
        simp only [Function.comp]
        rw [show i + Nat.succ k = i + 1 + k by omega]
      rw [hmapf]
      simp

/-- C3: with the quieted flag first observed at tick q (quiet() was called
while tick q-1 was already past its check), the slot runs exactly ticks
0..q-1 in full — each performs its fetch, sends the fetched job's ack or
fail, and reschedules — and tick q, observing quieted, performs no action at
all: no fetch, no reschedule, and therefore no further ticks (the run has
exactly q+1 ticks, the last empty). -/
theorem quiet_halts_acquisition (q fuel : Nat) (env : Nat → TickEnv)
    (hfuel : q < fuel) :
    Worker.slotLoop fuel 0 (fun j => decide (q ≤ j)) env
      = (List.range q).map (fun k => Worker.tick false (env k)) ++ [[]]
    ∧ (Worker.slotLoop fuel 0 (fun j => decide (q ≤ j)) env).length = q + 1
    ∧ Worker.tick true (env q) = []
    ∧ (∀ i, TickAction.fetch ∈ Worker.tick false (env i)
        ∧ TickAction.reschedule ∈ Worker.tick false (env i))
    ∧ (∀ i jid, env i = TickEnv.fetchJob jid HandleOutcome.acked →
        TickAction.ackJob jid ∈ Worker.tick false (env i))
    ∧ (∀ i jid, env i = TickEnv.fetchJob jid HandleOutcome.failed →
        TickAction.failJob jid ∈ Worker.tick false (env i)) := by
  have hfun : (fun j => decide (0 + q ≤ j)) = (fun j => decide (q ≤ j)) := by
    funext j
    rw [Nat.zero_add]
  have henv : (fun k => Worker.tick false (env (0 + k)))
      = (fun k => Worker.tick false (env k)) := by
    funext k
    rw [Nat.zero_add]
  have hclosed := slotLoop_quiet_closed q fuel 0 env hfuel
  rw [hfun, henv] at hclosed
  refine ⟨hclosed, ?_, rfl, fun i => tick_false_mem (env i), ?_, ?_⟩
  · rw [hclosed]
    simp
  · intro i jid hjid
    rw [hjid]
    simp [Worker.tick]
  · intro i jid hjid
    rw [hjid]
    simp [Worker.tick]

/-- C3 witness: quiet observed at tick 1; tick 0 fetched a job and acked it,
tick 1 did nothing and the slot stopped. -/
theorem quiet_halts_acquisition_witness :
    Worker.slotLoop 2 0 (fun j => decide (1 ≤ j))
        (fun _ : Nat => TickEnv.fetchJob "abc" HandleOutcome.acked)
      = (List.range 1).map (fun k => Worker.tick false
          ((fun _ : Nat => TickEnv.fetchJob "abc" HandleOutcome.acked) k)) ++ [[]]
    ∧ (Worker.slotLoop 2 0 (fun j => decide (1 ≤ j))
        (fun _ : Nat => TickEnv.fetchJob "abc" HandleOutcome.acked)).length = 1 + 1
    ∧ Worker.tick true (TickEnv.fetchJob "abc" HandleOutcome.acked) = []
    ∧ (∀ i, TickAction.fetch ∈ Worker.tick false
          ((fun _ : Nat => TickEnv.fetchJob "abc" HandleOutcome.acked) i)
        ∧ TickAction.reschedule ∈ Worker.tick false
          ((fun _ : Nat => TickEnv.fetchJob "abc" HandleOutcome.acked) i))
    ∧ (∀ i jid, (fun _ : Nat => TickEnv.fetchJob "abc" HandleOutcome.acked) i
          = TickEnv.fetchJob jid HandleOutcome.acked →
        TickAction.ackJob jid ∈ Worker.tick false
          ((fun _ : Nat => TickEnv.fetchJob "abc" HandleOutcome.acked) i))
    ∧ (∀ i jid, (fun _ : Nat => TickEnv.fetchJob "abc" HandleOutcome.acked) i
          = TickEnv.fetchJob jid HandleOutcome.failed →
        TickAction.failJob jid ∈ Worker.tick false
          ((fun _ : Nat => TickEnv.fetchJob "abc" HandleOutcome.acked) i)) :=
  quiet_halts_acquisition 1 2 (fun _ : Nat => TickEnv.fetchJob "abc" HandleOutcome.acked)
    (by decide)

/-- C4 counterexample: the claim says that whenever every slot's task settles
before T elapses, stop() closes the client exactly once and resolves with no
process exit. With settle = 0, closeDur = 5, T = 3 the tasks settle before T
(0 < 3), but because the drain branch clears the shutdown timer only after
awaiting client.close, the timer fires at T: the client is closed a second
time and the process exits with status 1. -/
theorem stop_counterexample :
    0 < 3
    ∧ Worker.stop 0 5 3 = { closeCalls := 2, resolved := true, exit := some 1 }
    ∧ Worker.stop 0 5 3 ≠ { closeCalls := 1, resolved := true, exit := none } := by
  decide

/-- C4 as amended: if every slot's in-flight task settles and the subsequent
client close completes before T elapses, stop() closes the client exactly
once, resolves normally and the process does not exit; if the tasks have not
all settled when T elapses, the worker closes the client and the process
exits with status 1 without waiting further; and if the tasks settled before
T but the client close had not completed by T, the timer still fires — the
client is closed a second time and the process exits with status 1. -/
theorem stop_drains_or_exits (settle closeDur T : Nat) :
    (settle + closeDur < T →
      Worker.stop settle closeDur T = { closeCalls := 1, resolved := true, exit := none })
    ∧ (T ≤ settle →
      Worker.stop settle closeDur T = { closeCalls := 1, resolved := true, exit := some 1 })
    ∧ (settle < T → T ≤ settle + closeDur →
      Worker.stop settle closeDur T
        = { closeCalls := 2, resolved := true, exit := some 1 }) := by
  refine ⟨fun h => ?_, fun h => ?_, fun h1 h2 => ?_⟩
  · simp [Worker.stop, h]
  · have hn1 : ¬ (settle + closeDur < T) := by omega
    have hn2 : ¬ (settle < T) := by omega
    simp [Worker.stop, hn1, hn2]
  · have hn1 : ¬ (settle + closeDur < T) := by omega
    simp [Worker.stop, hn1, h1]

/-- C4 witness for the amended claim: all three branches at concrete
timelines. -/
theorem stop_drains_or_exits_witness :
    Worker.stop 1 1 5 = { closeCalls := 1, resolved := true, exit := none }
    ∧ Worker.stop 7 0 5 = { closeCalls := 1, resolved := true, exit := some 1 }
    ∧ Worker.stop 2 9 5 = { closeCalls := 2, resolved := true, exit := some 1 } :=
  ⟨(stop_drains_or_exits 1 1 5).1 (by decide),
   (stop_drains_or_exits 7 0 5).2.1 (by decide),
   (stop_drains_or_exits 2 9 5).2.2 (by decide) (by decide)⟩
